import Mathlib

/-!
Verification of the GeoEco news pipeline (TrendWatchAI).

Shallow embedding of the core logic of the repository:
  * `app/scraper.py`   — keyword classifier, impact scorer, content extractor,
                         dedup-and-persist loop;
  * `app/whatsapp.py`  — Brazilian phone validation and the WhatsApp dispatcher;
  * `app/main.py`      — the alert fanout pipeline (`process_alerts_pipeline`);
  * `app/models.py`    — the data model (`NewsItem`, `Alert`, `User`, `UserCategory`).

Machine strings are Lean `String`s; timestamps are `Nat`; the database session
is explicit state (lists of rows).  Fallible operations return `Option`.
-/

namespace GeoEcoNews

/-! ### Text primitives

Python `str.lower()` restricted to the character ranges the repository's
vocabulary uses: ASCII letters and the Latin-1 letters (`À`..`Þ`, except `×`).
-/

/-- Python `str.lower` on ASCII and Latin-1 letters; identity elsewhere. -/
def pyLower (c : Char) : Char :=
  let n := c.toNat
  if (65 ≤ n ∧ n ≤ 90) ∨ (192 ≤ n ∧ n ≤ 222 ∧ n ≠ 215) then Char.ofNat (n + 32) else c

/-- `beginsWith hay pat` : `pat` is an initial segment of `hay`. -/
def beginsWith : List Char → List Char → Bool
  | _, [] => true
  | [], _ :: _ => false
  | a :: as, b :: bs => a == b && beginsWith as bs

/-- Python's substring test `pat in hay` (contiguous occurrence). -/
def occursIn (pat : List Char) : List Char → Bool
  | [] => beginsWith [] pat
  | c :: rest => beginsWith (c :: rest) pat || occursIn pat rest

/-! ### `app/scraper.py` — keyword vocabularies (lines 11-26)

Note: `"economia"` appears twice in `ECONOMIC_KEYWORDS`, exactly as in the
source (line 12 and line 13).
-/

def ECONOMIC_KEYWORDS : List String :=
  ["economia", "mercado", "inflação", "pib", "juros", "selic", "dólar", "real",
   "bolsa", "bovespa", "nasdaq", "investimento", "banco central", "fed", "economia",
   "recessão", "crescimento", "desemprego", "exportação", "importação"]

def GEOPOLITICAL_KEYWORDS : List String :=
  ["geopolítica", "eleição", "guerra", "conflito", "diplomacia", "otan", "onu",
   "china", "estados unidos", "rússia", "política internacional", "sanções",
   "acordo", "tratado", "presidente", "governo", "parlamento", "congresso"]

def MARKET_KEYWORDS : List String :=
  ["ações", "commodities", "petróleo", "ouro", "crypto", "bitcoin", "ethereum",
   "forex", "câmbio", "trading", "hedge fund", "ipo", "fusão", "aquisição"]

/-- `(title + " " + content).lower()` as a character list. -/
def lowerText (title content : String) : List Char :=
  (title ++ " " ++ content).data.map pyLower

/-- `sum(1 for keyword in KEYWORDS if keyword in text)` — one point per list
entry whose keyword occurs in the text (presence, not frequency). -/
def keywordScore (keywords : List String) (text : List Char) : Nat :=
  keywords.countP (fun k => occursIn k.data text)

/-- Python `max(keys, key=val)` : the first element of `keys` attaining the
maximal value of `val` (later elements replace the best only on a strictly
greater value).  `dflt` is returned for an empty list (Python raises there;
the call site always passes a nonempty list). -/
def pyMaxKey (keys : List String) (val : String → Nat) (dflt : String) : String :=
  match keys with
  | [] => dflt
  | k :: rest => rest.foldl (fun best cur => if val best < val cur then cur else best) k

/-- scraper.py lines 85-91: the `scores` dict (iterating in insertion order
economy, geopolitics, markets) and
`max(scores, key=scores.get) if max(scores.values()) > 0 else "economy"`. -/
def pickCategory (economic_score geopolitical_score market_score : Nat) : String :=
  let scoreOf : String → Nat := fun c =>
    if c = "economy" then economic_score
    else if c = "geopolitics" then geopolitical_score
    else market_score
  if 0 < max economic_score (max geopolitical_score market_score) then
    pyMaxKey ["economy", "geopolitics", "markets"] scoreOf "economy"
  else "economy"

/-- `NewsScraper.categorize_news` (scraper.py lines 77-91). -/
def categorize_news (title content : String) : String :=
  let text := lowerText title content
  pickCategory (keywordScore ECONOMIC_KEYWORDS text)
    (keywordScore GEOPOLITICAL_KEYWORDS text) (keywordScore MARKET_KEYWORDS text)

/-- scraper.py lines 152-155. -/
def high_impact_terms : List String :=
  ["quebra", "crash", "crise", "emergência", "urgente",
   "histórico", "recorde", "máxima", "mínima", "alerta"]

/-- `NewsScraper.calculate_impact_score` (scraper.py lines 150-164):
base 1, +1 per high-impact term occurring in the lower-cased title, capped at 5. -/
def calculate_impact_score (title : String) : Nat :=
  let title_lower := title.data.map pyLower
  let score := 1 + high_impact_terms.countP (fun term => occursIn term.data title_lower)
  min score 5


/-! ### `app/scraper.py` — content extractor (lines 48-75)

The network fetch is the function's only external input; we pass its outcome
explicitly: `.error` for any raised fetch/parse exception, `.ok` for a parsed
page.  A parsed page is abstracted as the text nodes each of the five content
selectors matches, in the priority order of `content_selectors` (lines 56-62).
-/

structure FetchedPage where
  /-- Paragraph texts matched per selector, in selector priority order. -/
  selectorResults : List (List String)
deriving DecidableEq

/-- Python `str.strip()`: drop leading and trailing whitespace. -/
def isSpaceChar (c : Char) : Bool :=
  c == ' ' || c == '\t' || c == '\n' || c == '\r'

/-- `.strip()` on a character list. -/
def stripChars (l : List Char) : List Char :=
  ((l.dropWhile isSpaceChar).reverse.dropWhile isSpaceChar).reverse

/-- Python `" ".join(blocks)`. -/
def joinSpaceChars : List (List Char) → List Char
  | [] => []
  | [s] => s
  | s :: rest => s ++ ' ' :: joinSpaceChars rest

/-- Lines 64-69: take the FIRST selector with any matching paragraphs, join
the first 5 of them (each `.strip()`ed) with a single space. -/
def extractedContent (page : FetchedPage) : List Char :=
  match page.selectorResults.find? (fun ps => !ps.isEmpty) with
  | some ps => joinSpaceChars ((ps.take 5).map (fun p => stripChars p.data))
  | none => []

/-- `NewsScraper.extract_text_from_url` (scraper.py lines 48-75).
Any exception is caught (line 73) and mapped to the error sentinel; otherwise
the content is truncated to 500 characters, with a separate sentinel when no
selector yielded content (line 71). -/
def extract_text_from_url (fetch : Except String FetchedPage) : String :=
  match fetch with
  | .error _ => "Erro ao extrair conteúdo"
  | .ok page =>
    let content := extractedContent page
    if content.isEmpty then "Conteúdo não disponível" else String.mk (content.take 500)

/-! ### `app/whatsapp.py` — phone validation (lines 77-101) -/

/-- `[0-9]` (the regex digit class used by the validation pattern). -/
def isDigitChar (c : Char) : Bool := 48 ≤ c.toNat && c.toNat ≤ 57

/-- Line 85: `re.sub(r'\D', '', phone_number)` — keep only digits. -/
def digitsOnly (s : String) : List Char := s.data.filter isDigitChar

/-- Lines 87-95: prefix `55` to an 11-digit number whose 3rd digit is `9`;
for a 10-digit number insert the mobile `9` after the 2-digit area code and
prefix `55`; otherwise leave unchanged. -/
def addCountryCode (d : List Char) : List Char :=
  if d.length = 11 ∧ d.get? 2 = some '9' then '5' :: '5' :: d
  else if d.length = 10 then '5' :: '5' :: (d.take 2 ++ '9' :: d.drop 2)
  else d

/-- Line 98: `re.match(r'^55[1-9][0-9]9[0-9]{8}$', clean_phone)`. -/
def brMobileMatch : List Char → Bool
  | c1 :: c2 :: d1 :: d2 :: c5 :: rest =>
    c1 == '5' && c2 == '5' && (49 ≤ d1.toNat && d1.toNat ≤ 57) && isDigitChar d2 &&
      c5 == '9' && rest.length == 8 && rest.all isDigitChar
  | _ => false

/-- `validate_brazilian_phone` (whatsapp.py lines 77-101).  `none` models the
`ValueError` raised on line 99. -/
def validate_brazilian_phone (p : String) : Option String :=
  let clean_phone := addCountryCode (digitsOnly p)
  if brMobileMatch clean_phone then some (String.mk clean_phone) else none


/-! ### `app/whatsapp.py` — dispatcher (lines 8-75)

External inputs passed explicitly: the configured API key (`WASENDER_API_KEY`,
line 6, `none` when unset) and the outcome of the HTTP POST on lines 58-63
(`.error` for a raised network exception).  The message formatting on lines
27-55 is pure string/format work that cannot raise and does not influence the
returned boolean, so the response model keeps only what the code inspects:
the status code and whether `response.json()` (line 66) succeeds.
-/

structure HttpResponse where
  status : Nat
  /-- Whether the response body parses as JSON (`response.json()` raises otherwise). -/
  bodyIsJson : Bool
deriving DecidableEq

/-- `send_whatsapp_alert` (whatsapp.py lines 8-75).  Missing key → `False`
(lines 21-23); invalid phone → `False` (lines 36-40); raised network error or
a raised JSON decode error on a 200 response → caught on line 73 → `False`;
non-200 status → `False` (lines 69-71); otherwise `True` (line 68). -/
def send_whatsapp_alert (apiKey : Option String) (to_phone_number : String)
    (net : Except String HttpResponse) : Bool :=
  match apiKey with
  | none => false
  | some _ =>
    match validate_brazilian_phone to_phone_number with
    | none => false
    | some _ =>
      match net with
      | .error _ => false
      | .ok response =>
        if response.status = 200 then
          if response.bodyIsJson then true else false
        else false

/-! ### `app/models.py` — data model

Rows of the four tables the core touches.  `User.categories` embeds the
user's `UserCategory` row (`models.py` line 49 makes `user_id` unique and
line 29 declares the relationship with `uselist=False`, so the
`User × UserCategory` join of main.py lines 125-127 is one-to-one); fields the
core never reads (names, password hashes, Stripe ids, timestamps of record
creation) are omitted.  Timestamps are `Nat`. -/

structure UserCategory where
  economy : Bool
  geopolitics : Bool
  markets : Bool
deriving DecidableEq

structure User where
  id : Nat
  email : String
  phone : String
  plan : String
  trial_expires : Nat
  categories : UserCategory
deriving DecidableEq

structure NewsItem where
  id : Nat
  title : String
  content : String
  url : String
  category : String
  source : String
  published_at : Nat
  impact_score : Nat
  processed : Bool
deriving DecidableEq

structure Alert where
  user_id : Nat
  title : String
  content : String
  category : String
  news_url : String
deriving DecidableEq

/-- The persistent store the pipeline reads and writes. -/
structure DB where
  news : List NewsItem
  users : List User
  alerts : List Alert
deriving DecidableEq

/-! ### `app/main.py` — alert fanout pipeline (lines 108-186)

`run_news_scraper()` (line 112) is modelled separately (`persistRun` below);
the definitions here embed the fanout body, lines 115-182.  The session is
created with `autoflush=False` (`models.py` line 10), so queries issued during
a run see only rows committed before the run: the alert-existence check on
lines 140-143 consults the run-start alert table, and all additions become
visible at the single `db.commit()` on line 180 (the `alerts` table has no
uniqueness constraint, so that commit always succeeds). -/

/-- main.py lines 128-131: the category-flag filter of the user query. -/
def wantsCategory (cat : String) (uc : UserCategory) : Bool :=
  (cat == "economy" && uc.economy) ||
    ((cat == "geopolitics" && uc.geopolitics) || (cat == "markets" && uc.markets))

/-- main.py line 134: `(User.plan != "free") | (User.trial_expires > utcnow())`. -/
def hasActivePlan (now : Nat) (u : User) : Bool :=
  u.plan != "free" || decide (now < u.trial_expires)

/-- main.py lines 125-135: the eligible-user query for one news item. -/
def eligibleUsers (now : Nat) (users : List User) (item : NewsItem) : List User :=
  users.filter (fun u => wantsCategory item.category u.categories && hasActivePlan now u)

/-- main.py lines 140-143: is there an alert for this (user, news URL) pair? -/
def alertExists (alerts : List Alert) (uid : Nat) (url : String) : Bool :=
  alerts.any (fun a => a.user_id == uid && a.news_url == url)

/-- main.py lines 149-155: the alert record created for a user and item. -/
def mkAlert (uid : Nat) (item : NewsItem) : Alert :=
  { user_id := uid, title := item.title, content := item.content,
    category := item.category, news_url := item.url }

/-- main.py lines 137-175: the per-user loop of one news item.  Returns the
alerts created this run for this item; the existence check runs against the
committed (run-start) alert table.  Dispatch outcomes and per-user exceptions
(lines 159-175) do not affect the created records. -/
def processUsersForItem (item : NewsItem) (users : List User)
    (committed : List Alert) : List Alert :=
  match users with
  | [] => []
  | u :: rest =>
    if alertExists committed u.id item.url then processUsersForItem item rest committed
    else mkAlert u.id item :: processUsersForItem item rest committed

/-- main.py lines 118-121: `processed == False` and `impact_score >= 2`. -/
def unprocessedHighImpact (news : List NewsItem) : List NewsItem :=
  news.filter (fun n => !n.processed && decide (2 ≤ n.impact_score))

/-- main.py line 178: `update NewsItem set processed=True where id = itemId`. -/
def markItemProcessed (news : List NewsItem) (itemId : Nat) : List NewsItem :=
  news.map (fun n => if n.id == itemId then { n with processed := true } else n)

/-- `process_alerts_pipeline` (main.py lines 108-186), fanout body: select the
unprocessed high-impact items, then per item create the missing alerts for its
eligible users and mark the item processed; commit at the end. -/
def process_alerts_pipeline (now : Nat) (db : DB) : DB :=
  let selected := unprocessedHighImpact db.news
  let st := selected.foldl
    (fun st item =>
      (markItemProcessed st.1 item.id,
       st.2 ++ processUsersForItem item (eligibleUsers now db.users item) db.alerts))
    (db.news, db.alerts)
  { news := st.1, users := db.users, alerts := st.2 }

/-- Alerts in `alerts` for the pair `(uid, url)`. -/
def countA (alerts : List Alert) (uid : Nat) (url : String) : Nat :=
  alerts.countP (fun a => a.user_id == uid && a.news_url == url)

/-! ### `app/scraper.py` — dedup and persist (lines 166-208)

A scraped candidate as assembled on lines 132-139.  The persist loop checks
each candidate's URL against the store (line 180); the session again has
`autoflush=False`, so the check sees only committed rows — items added earlier
in the same run are invisible to it.  All additions are committed at once on
line 201; `news_items.url` is UNIQUE (`models.py` line 63), so a batch that
would duplicate a URL makes the commit raise and line 206 rolls the whole
batch back. -/

structure Article where
  title : String
  content : String
  url : String
  source : String
  category : String
  published_at : Nat
deriving DecidableEq

/-- scraper.py lines 185-197: the `NewsItem` persisted for a candidate
(`processed=False`; the id is assigned by the store and plays no role here). -/
def mkNewsItem (a : Article) : NewsItem :=
  { id := 0, title := a.title, content := a.content, url := a.url,
    category := a.category, source := a.source, published_at := a.published_at,
    impact_score := calculate_impact_score a.title, processed := false }

/-- scraper.py lines 178-199: the rows `db.add`ed during one run — every
candidate whose URL is not in the committed store (duplicates inside the batch
are each added, since pending rows are invisible to the line-180 query). -/
def pendingItems (store : List NewsItem) : List Article → List NewsItem
  | [] => []
  | a :: rest =>
    if store.any (fun n => n.url == a.url) then pendingItems store rest
    else mkNewsItem a :: pendingItems store rest

/-- All elements pairwise distinct (under `BEq`). -/
def allDistinct [BEq α] : List α → Bool
  | [] => true
  | a :: rest => !rest.contains a && allDistinct rest

def urlsOf (l : List NewsItem) : List String := l.map (fun n => n.url)

/-- One dedup-and-persist run (scraper.py lines 166-208) over an
already-scraped candidate list: add the pending rows and commit; if the commit
would violate the UNIQUE constraint on `news_items.url`, roll the batch back
(lines 204-206). -/
def persistRun (store : List NewsItem) (candidates : List Article) : List NewsItem :=
  let pending := pendingItems store candidates
  if allDistinct (urlsOf (store ++ pending)) then store ++ pending else store

/-- Stored items carrying a given URL. -/
def countUrl (store : List NewsItem) (url : String) : Nat :=
  store.countP (fun n => n.url == url)

/-! ## Specification-side definitions

Definitions below restate parts of the specification in its own words, to be
compared with the source-derived definitions above. -/

/-- The first category in declaration order (economy, geopolitics, markets)
whose keyword count is maximal, i.e. greater than or equal to both others. -/
def firstWithMaxScore (e g m : Nat) : String :=
  if g ≤ e ∧ m ≤ e then "economy"
  else if m ≤ g then "geopolitics"
  else "markets"

/-- The phone shape the specification prescribes: country code `55`, an area
code digit in `[1-9]` followed by one digit `[0-9]`, the mobile prefix `9`,
then 8 digits — 13 digits total. -/
def specPhoneShape (f : List Char) : Bool :=
  f.length == 13 &&
  (f.take 2 == ['5', '5']) &&
  (match f.get? 2 with | some c => 49 ≤ c.toNat && c.toNat ≤ 57 | none => false) &&
  (match f.get? 3 with | some c => isDigitChar c | none => false) &&
  (f.get? 4 == some '9') &&
  (f.drop 5).all isDigitChar

/-! ## Theorems -/

section Claims

/-- scraper.py lines 85-91 pick the first-declared category attaining the
maximal keyword count. -/
theorem pickCategory_eq_firstWithMaxScore (e g m : Nat) :
    pickCategory e g m = firstWithMaxScore e g m := by
  have hA : (("geopolitics" : String) = "economy") = False := eq_false (by decide)
  have hB : (("markets" : String) = "economy") = False := eq_false (by decide)
  have hC : (("markets" : String) = "geopolitics") = False := eq_false (by decide)
  unfold pickCategory pyMaxKey
  simp only [List.foldl_cons, List.foldl_nil, reduceIte, hA, hB, hC, if_false]
  by_cases h0 : 0 < max e (max g m)
  · rw [if_pos h0]
    by_cases h4 : e < g
    · simp only [if_pos h4, reduceIte, hA, if_false]
      by_cases h5 : g < m
      · rw [if_pos h5, firstWithMaxScore, if_neg (by omega), if_neg (by omega)]
      · rw [if_neg h5, firstWithMaxScore, if_neg (by omega), if_pos (by omega)]
    · simp only [if_neg h4, reduceIte]
      by_cases h5 : e < m
      · rw [if_pos h5, firstWithMaxScore, if_neg (by omega), if_neg (by omega)]
      · rw [if_neg h5, firstWithMaxScore, if_pos (by omega)]
  · rw [if_neg h0]
    have h1 := Nat.le_max_left e (max g m)
    have h3 := Nat.le_max_left g m
    have h5 : max g m ≤ max e (max g m) := Nat.le_max_right e (max g m)
    rw [firstWithMaxScore, if_pos (by omega)]

/-- C2, counterexample: on title `"guerra"` and excerpt `"bitcoin"` the
geopolitics and markets counts tie at 1 (economy at 0), yet the classifier
returns `"geopolitics"`, not `"economy"` — refuting the claim that every tie
resolves to `"economy"`. -/
theorem C2_counterexample :
    keywordScore GEOPOLITICAL_KEYWORDS (lowerText "guerra" "bitcoin") =
      keywordScore MARKET_KEYWORDS (lowerText "guerra" "bitcoin") ∧
    keywordScore ECONOMIC_KEYWORDS (lowerText "guerra" "bitcoin") = 0 ∧
    keywordScore GEOPOLITICAL_KEYWORDS (lowerText "guerra" "bitcoin") = 1 ∧
    categorize_news "guerra" "bitcoin" = "geopolitics" ∧
    categorize_news "guerra" "bitcoin" ≠ "economy" := by
  refine ⟨by decide, by decide, by decide, by decide, by decide⟩

/-- C2, amended: for every (title, excerpt) pair the classifier returns the
first-declared category (order economy, geopolitics, markets) whose keyword
count is maximal.  All-zero scores and ties including economy therefore give
`"economy"`, but a tie excluding economy resolves to the earliest tied
category, not to `"economy"`. -/
theorem C2_classifier_first_max (title content : String) :
    categorize_news title content =
      firstWithMaxScore
        (keywordScore ECONOMIC_KEYWORDS (lowerText title content))
        (keywordScore GEOPOLITICAL_KEYWORDS (lowerText title content))
        (keywordScore MARKET_KEYWORDS (lowerText title content)) := by
  unfold categorize_news
  exact pickCategory_eq_firstWithMaxScore _ _ _

/-- C3, counterexample: the impact score of `"Mercado em crise histórica"` is
not 3 — the vocabulary term is `"histórico"`, which does not occur in the
feminine `"histórica"`, so only `"crise"` matches. -/
theorem C3_counterexample :
    calculate_impact_score "Mercado em crise histórica" ≠ 3 := by decide

/-- C3, amended: the impact scorer applied to the title
`"Mercado em crise histórica"` returns 2 (1 base point plus the single match
`"crise"`); `"histórico"` does not occur in the title, so it contributes
nothing. -/
theorem C3_impact_score_value :
    calculate_impact_score "Mercado em crise histórica" = 2 ∧
    occursIn "crise".data ("Mercado em crise histórica".data.map pyLower) = true ∧
    occursIn "histórico".data ("Mercado em crise histórica".data.map pyLower) = false := by
  refine ⟨by decide, by decide, by decide⟩

/-- The regex of whatsapp.py line 98 accepts exactly the phone shape the
specification describes. -/
theorem brMobileMatch_eq_specPhoneShape (f : List Char) :
    brMobileMatch f = specPhoneShape f := by
  rcases f with _ | ⟨a, _ | ⟨b, _ | ⟨c, _ | ⟨d, _ | ⟨e, rest⟩⟩⟩⟩⟩
  · rfl
  · rfl
  · rfl
  · rfl
  · rfl
  · rw [Bool.eq_iff_iff]
    simp only [brMobileMatch, specPhoneShape, Bool.and_eq_true, beq_iff_eq,
      List.length_cons, List.take_succ_cons, List.take_zero, List.get?_cons_succ,
      List.get?_cons_zero, List.drop_succ_cons, List.drop_zero, List.cons.injEq,
      and_true, Option.some.injEq]
    constructor
    · rintro ⟨⟨⟨⟨⟨⟨h1, h2⟩, h3⟩, h4⟩, h5⟩, h6⟩, h7⟩
      exact ⟨⟨⟨⟨⟨by omega, h1, h2⟩, h3⟩, h4⟩, h5⟩, h7⟩
    · rintro ⟨⟨⟨⟨⟨hl, h1, h2⟩, h3⟩, h4⟩, h5⟩, h7⟩
      exact ⟨⟨⟨⟨⟨⟨h1, h2⟩, h3⟩, h4⟩, h5⟩, by omega⟩, h7⟩

/-- C6: phone validation strips non-digits, prefixes `55` to an 11-digit
number with third digit `9`, inserts the mobile `9` into a 10-digit number,
and accepts exactly the spec's 13-digit shape, failing on anything else; the
three example inputs behave as the specification states. -/
theorem C6_phone_validation :
    validate_brazilian_phone "51999999999" = some "5551999999999" ∧
    validate_brazilian_phone "5199999999" = some "5551999999999" ∧
    validate_brazilian_phone "123" = none ∧
    ∀ p : String,
      validate_brazilian_phone p =
        (if specPhoneShape (addCountryCode (digitsOnly p)) then
          some (String.mk (addCountryCode (digitsOnly p)))
        else none) := by
  refine ⟨by decide, by decide, by decide, fun p => ?_⟩
  rw [validate_brazilian_phone, brMobileMatch_eq_specPhoneShape]

/-- First segment of `ECONOMIC_KEYWORDS` (entries before the duplicated
`"economia"` on scraper.py line 13). -/
def econKeywordsA : List String :=
  ["economia", "mercado", "inflação", "pib", "juros", "selic", "dólar", "real",
   "bolsa", "bovespa", "nasdaq", "investimento", "banco central", "fed"]

/-- Last segment of `ECONOMIC_KEYWORDS` (entries after the duplicated
`"economia"`). -/
def econKeywordsB : List String :=
  ["recessão", "crescimento", "desemprego", "exportação", "importação"]

theorem econ_keywords_split :
    ECONOMIC_KEYWORDS = econKeywordsA ++ "economia" :: econKeywordsB := rfl

theorem econ_keywords_dedup :
    ECONOMIC_KEYWORDS.eraseDups = econKeywordsA ++ econKeywordsB := by decide

theorem geo_keywords_dedup :
    GEOPOLITICAL_KEYWORDS.eraseDups = GEOPOLITICAL_KEYWORDS := by decide

theorem market_keywords_dedup :
    MARKET_KEYWORDS.eraseDups = MARKET_KEYWORDS := by decide

theorem countP_append_cons (p : String → Bool) (xs ys : List String) (y : String) :
    List.countP p (xs ++ y :: ys) =
      List.countP p (xs ++ ys) + (if p y then 1 else 0) := by
  simp only [List.countP_append, List.countP_cons]
  omega

/-- C7, counterexample: for the text `"economia"` the economy count is 2
(the entry `"economia"` appears twice in the vocabulary list), while only one
distinct economy keyword is present. -/
theorem C7_counterexample :
    keywordScore ECONOMIC_KEYWORDS (lowerText "economia" "") ≠
      List.countP (fun k => occursIn k.data (lowerText "economia" ""))
        ECONOMIC_KEYWORDS.eraseDups := by decide

/-- C7, amended: each list entry contributes at most 1 (presence, not
frequency), so for the duplicate-free geopolitics and markets vocabularies the
count equals the number of distinct keywords present; for the economy
vocabulary, whose list contains `"economia"` twice, the count exceeds the
distinct-keyword count by exactly 1 whenever `"economia"` occurs in the
text. -/
theorem C7_keyword_count (title excerpt : String) :
    keywordScore ECONOMIC_KEYWORDS (lowerText title excerpt) =
      List.countP (fun k => occursIn k.data (lowerText title excerpt))
          ECONOMIC_KEYWORDS.eraseDups +
        (if occursIn "economia".data (lowerText title excerpt) then 1 else 0) ∧
    keywordScore GEOPOLITICAL_KEYWORDS (lowerText title excerpt) =
      List.countP (fun k => occursIn k.data (lowerText title excerpt))
        GEOPOLITICAL_KEYWORDS.eraseDups ∧
    keywordScore MARKET_KEYWORDS (lowerText title excerpt) =
      List.countP (fun k => occursIn k.data (lowerText title excerpt))
        MARKET_KEYWORDS.eraseDups := by
  refine ⟨?_, ?_, ?_⟩
  · rw [keywordScore, econ_keywords_dedup, econ_keywords_split, countP_append_cons]
  · rw [keywordScore, geo_keywords_dedup]
  · rw [keywordScore, market_keywords_dedup]

/-- C9, counterexample: a raised fetch error yields the sentinel
`"Erro ao extrair conteúdo"`, while a fetched page on which no selector
matches yields `"Conteúdo não disponível"` — two different strings, refuting
the claim that failures convert to the same sentinel as the no-content
case. -/
theorem C9_counterexample :
    extract_text_from_url (Except.error "timeout") = "Erro ao extrair conteúdo" ∧
    extract_text_from_url (Except.ok ⟨[[], [], [], [], []]⟩) = "Conteúdo não disponível" ∧
    "Erro ao extrair conteúdo" ≠ "Conteúdo não disponível" := by
  refine ⟨by decide, by decide, by decide⟩

/-- C9, amended: the extractor never raises (it is a total function of the
fetch outcome); every fetch/parse failure is converted to the fixed sentinel
`"Erro ao extrair conteúdo"`, which differs from the sentinel
`"Conteúdo não disponível"` returned when no selector yields content;
otherwise the extracted content is returned truncated to 500 characters. -/
theorem C9_extractor_sentinels :
    (∀ e : String, extract_text_from_url (Except.error e) = "Erro ao extrair conteúdo") ∧
    (∀ page : FetchedPage, extractedContent page = [] →
      extract_text_from_url (Except.ok page) = "Conteúdo não disponível") ∧
    (∀ page : FetchedPage, extractedContent page ≠ [] →
      extract_text_from_url (Except.ok page) = String.mk ((extractedContent page).take 500)) ∧
    ("Erro ao extrair conteúdo" : String) ≠ "Conteúdo não disponível" := by
  refine ⟨fun e => rfl, fun page h => ?_, fun page h => ?_, by decide⟩
  · simp [extract_text_from_url, List.isEmpty_iff, h]
  · simp [extract_text_from_url, List.isEmpty_iff, h]

theorem C9_extractor_sentinels_witness :
    extract_text_from_url (Except.error "timeout") = "Erro ao extrair conteúdo" ∧
    extract_text_from_url (Except.ok ⟨[[]]⟩) = "Conteúdo não disponível" ∧
    extract_text_from_url (Except.ok ⟨[["Um texto qualquer"]]⟩) =
      String.mk ((extractedContent ⟨[["Um texto qualquer"]]⟩).take 500) :=
  ⟨C9_extractor_sentinels.1 "timeout",
   C9_extractor_sentinels.2.1 ⟨[[]]⟩ (by decide),
   C9_extractor_sentinels.2.2.1 ⟨[["Um texto qualquer"]]⟩ (by decide)⟩

/-- C10, counterexample: a 200 response whose body is not valid JSON makes
`response.json()` raise; the exception is caught and the dispatcher returns
`false` even though the endpoint responded HTTP 200 — refuting "true exactly
when the endpoint responds HTTP 200". -/
theorem C10_counterexample :
    (HttpResponse.mk 200 false).status = 200 ∧
    send_whatsapp_alert (some "key") "51999999999"
      (Except.ok (HttpResponse.mk 200 false)) = false := by
  refine ⟨rfl, by decide⟩

/-- C10, amended: the dispatcher never raises (it is a total boolean
function) and returns `true` exactly when the API key is configured, the
phone number validates, the request reaches the endpoint, the response status
is 200 and its body parses as JSON; any non-200 response, missing key,
malformed phone, network error — or JSON decode failure on a 200 response —
yields `false`. -/
theorem C10_dispatcher_success_iff (k : Option String) (p : String)
    (net : Except String HttpResponse) :
    send_whatsapp_alert k p net = true ↔
      (k.isSome = true ∧ (validate_brazilian_phone p).isSome = true ∧
       ∃ r : HttpResponse, net = Except.ok r ∧ r.status = 200 ∧ r.bodyIsJson = true) := by
  cases k with
  | none => simp [send_whatsapp_alert]
  | some key =>
    cases hv : validate_brazilian_phone p with
    | none => simp [send_whatsapp_alert, hv]
    | some v =>
      cases net with
      | error e => simp [send_whatsapp_alert, hv]
      | ok r =>
        by_cases hs : r.status = 200
        · cases hb : r.bodyIsJson
          · simp [send_whatsapp_alert, hv, hs, hb]
          · simp [send_whatsapp_alert, hv, hs, hb]
        · simp [send_whatsapp_alert, hv, hs]

/-- A high-impact unprocessed item used in concrete scenarios. -/
def trialItem : NewsItem :=
  { id := 7, title := "Crise urgente", content := "conteudo", url := "http://news/1",
    category := "economy", source := "G1", published_at := 0,
    impact_score := 2, processed := false }

/-- A free-plan user whose trial expired at time 50 (evaluation time is 100). -/
def freeExpiredUser : User :=
  { id := 1, email := "a@b.com", phone := "5551999999999", plan := "free",
    trial_expires := 50, categories := ⟨true, true, true⟩ }

/-- The same free-plan user with the trial still running until time 200. -/
def freeTrialUser : User :=
  { freeExpiredUser with trial_expires := 200 }

def dbFreeExpired : DB := ⟨[trialItem], [freeExpiredUser], []⟩

def dbFreeTrial : DB := ⟨[trialItem], [freeTrialUser], []⟩

/-- C5: a user is eligible for an item iff the user is in the user table, the
preference flag of the item's category is set, and the plan is not `"free"`
or the trial has not yet expired.  Concretely, at evaluation time 100 a
free-plan user with `trial_expires = 50` receives no alert from the pipeline
even though the category flag matches, while the same user with
`trial_expires = 200` receives exactly the alert for the item. -/
theorem C5_eligibility_gate :
    (∀ (now : Nat) (users : List User) (item : NewsItem) (u : User),
      u ∈ eligibleUsers now users item ↔
        (u ∈ users ∧ wantsCategory item.category u.categories = true ∧
         hasActivePlan now u = true)) ∧
    (∀ uc : UserCategory,
      wantsCategory "economy" uc = uc.economy ∧
      wantsCategory "geopolitics" uc = uc.geopolitics ∧
      wantsCategory "markets" uc = uc.markets) ∧
    (∀ (now : Nat) (u : User),
      hasActivePlan now u = true ↔ (u.plan ≠ "free" ∨ now < u.trial_expires)) ∧
    (process_alerts_pipeline 100 dbFreeExpired).alerts = [] ∧
    (process_alerts_pipeline 100 dbFreeTrial).alerts = [mkAlert 1 trialItem] := by
  refine ⟨?_, ?_, ?_, by decide, by decide⟩
  · intro now users item u
    simp [eligibleUsers, List.mem_filter, Bool.and_eq_true, and_assoc]
  · intro uc
    rcases uc with ⟨e, g, m⟩
    cases e <;> cases g <;> cases m <;> exact ⟨by decide, by decide, by decide⟩
  · intro now u
    simp [hasActivePlan, Bool.or_eq_true, bne_iff_ne, decide_eq_true_eq]

/-- `allDistinct` is `Nodup`. -/
theorem allDistinct_iff_nodup {α : Type} [BEq α] [LawfulBEq α] (l : List α) :
    allDistinct l = true ↔ l.Nodup := by
  induction l with
  | nil => simp [allDistinct]
  | cons a rest ih =>
    simp [allDistinct, ih, List.nodup_cons, List.contains, List.elem_iff]

/-- If no committed alert carries `url`, the existence check is false for
every user id. -/
theorem alertExists_eq_false_of_no_url (alerts : List Alert) (url : String)
    (h : alerts.all (fun a => a.news_url != url) = true) (uid : Nat) :
    alertExists alerts uid url = false := by
  rw [alertExists, List.any_eq_false]
  intro a ha
  have hne := List.all_eq_true.mp h a ha
  simp only [bne_iff_ne, ne_eq] at hne
  simp [hne]

/-- When no committed alert carries the item's URL, the per-user loop creates
one alert per occurrence of a user id in the user list. -/
theorem countA_processUsersForItem (item : NewsItem) (users : List User)
    (committed : List Alert) (uid : Nat)
    (h : alertExists committed uid item.url = false) :
    countA (processUsersForItem item users committed) uid item.url =
      List.count uid (users.map (fun u => u.id)) := by
  induction users with
  | nil => rfl
  | cons u rest ih =>
    by_cases hu : u.id = uid
    · subst hu
      rw [processUsersForItem, if_neg (by simp [h])]
      rw [countA] at ih ⊢
      simp [List.countP_cons, mkAlert, List.count_cons, ih]
    · rw [processUsersForItem]
      by_cases hex : alertExists committed u.id item.url = true
      · rw [if_pos hex]
        rw [countA] at ih ⊢
        simp [List.count_cons, ih, hu]
      · rw [if_neg hex]
        rw [countA] at ih ⊢
        simp [List.countP_cons, mkAlert, List.count_cons, ih, hu]

theorem countA_append (l1 l2 : List Alert) (uid : Nat) (url : String) :
    countA (l1 ++ l2) uid url = countA l1 uid url + countA l2 uid url :=
  List.countP_append _ _ _

/-- C1: over a store holding one unprocessed high-impact item and no alert
for its URL, running the fanout twice creates exactly one alert per
(user id, news URL) pair across the eligible users, the item is processed
after the first run, and the second run creates no alert at all. -/
theorem C1_fanout_idempotent (now : Nat) (db : DB) (n : NewsItem)
    (hnews : db.news = [n]) (hproc : n.processed = false)
    (himp : 2 ≤ n.impact_score)
    (halerts : db.alerts.all (fun a => a.news_url != n.url) = true)
    (hids : allDistinct (db.users.map (fun u => u.id)) = true) :
    ((eligibleUsers now db.users n).all
        (fun u =>
          countA (process_alerts_pipeline now (process_alerts_pipeline now db)).alerts
              u.id n.url == 1) = true) ∧
    ((process_alerts_pipeline now db).news.all (fun m => m.processed) = true) ∧
    (process_alerts_pipeline now (process_alerts_pipeline now db)).alerts =
      (process_alerts_pipeline now db).alerts := by
  have hsel : unprocessedHighImpact db.news = [n] := by
    rw [hnews]
    simp [unprocessedHighImpact, List.filter_cons, hproc, himp]
  have h1 : process_alerts_pipeline now db =
      { news := markItemProcessed db.news n.id, users := db.users,
        alerts := db.alerts ++ processUsersForItem n (eligibleUsers now db.users n) db.alerts } := by
    simp only [process_alerts_pipeline, hsel, List.foldl_cons, List.foldl_nil]
  have h1news : (process_alerts_pipeline now db).news = [{ n with processed := true }] := by
    rw [h1]
    simp [markItemProcessed, hnews]
  have h2sel : unprocessedHighImpact (process_alerts_pipeline now db).news = [] := by
    rw [h1news]
    simp [unprocessedHighImpact, List.filter_cons]
  have h2alerts : (process_alerts_pipeline now (process_alerts_pipeline now db)).alerts =
      (process_alerts_pipeline now db).alerts := by
    conv_lhs => rw [process_alerts_pipeline]
    rw [h2sel]
    simp [List.foldl_nil]
  refine ⟨?_, ?_, h2alerts⟩
  · rw [List.all_eq_true]
    intro u hu
    have hex : alertExists db.alerts u.id n.url = false :=
      alertExists_eq_false_of_no_url db.alerts n.url halerts u.id
    have hc0 : countA db.alerts u.id n.url = 0 := by
      rw [countA, List.countP_eq_zero]
      intro a ha
      have hne := List.all_eq_true.mp halerts a ha
      simp only [bne_iff_ne, ne_eq] at hne
      simp [hne]
    have hcnew := countA_processUsersForItem n (eligibleUsers now db.users n) db.alerts u.id hex
    have hnodup : ((eligibleUsers now db.users n).map (fun u => u.id)).Nodup := by
      have hsub : (eligibleUsers now db.users n).Sublist db.users := List.filter_sublist _
      exact List.Nodup.sublist (hsub.map (fun u => u.id)) ((allDistinct_iff_nodup _).mp hids)
    have hcount1 : List.count u.id ((eligibleUsers now db.users n).map (fun u => u.id)) = 1 :=
      List.count_eq_one_of_mem hnodup (List.mem_map_of_mem _ hu)
    rw [h2alerts, h1]
    simp only [beq_iff_eq]
    rw [countA_append, hc0, hcnew, hcount1]
  · rw [h1news]
    simp

/-- Concrete one-item, one-user store instantiating `C1_fanout_idempotent`. -/
def exItem : NewsItem :=
  { id := 1, title := "Crise global", content := "c", url := "http://news/ex",
    category := "economy", source := "G1", published_at := 0,
    impact_score := 3, processed := false }

def exUser : User :=
  { id := 1, email := "u@x.com", phone := "5551999999999", plan := "pro",
    trial_expires := 0, categories := ⟨true, true, true⟩ }

def exDb : DB := ⟨[exItem], [exUser], []⟩

theorem C1_fanout_idempotent_witness :
    ((eligibleUsers 5 exDb.users exItem).all
        (fun u =>
          countA (process_alerts_pipeline 5 (process_alerts_pipeline 5 exDb)).alerts
              u.id exItem.url == 1) = true) ∧
    ((process_alerts_pipeline 5 exDb).news.all (fun m => m.processed) = true) ∧
    (process_alerts_pipeline 5 (process_alerts_pipeline 5 exDb)).alerts =
      (process_alerts_pipeline 5 exDb).alerts :=
  C1_fanout_idempotent 5 exDb exItem rfl rfl (by decide) (by decide) (by decide)

/-- The news component of a fanout run is the fold of per-item processed
markings over the selected items. -/
theorem fanout_fold_fst (now : Nat) (users : List User) (committed : List Alert)
    (items : List NewsItem) (ns : List NewsItem) (as : List Alert) :
    (items.foldl
        (fun st item =>
          (markItemProcessed st.1 item.id,
           st.2 ++ processUsersForItem item (eligibleUsers now users item) committed))
        (ns, as)).1 =
      items.foldl (fun ns item => markItemProcessed ns item.id) ns := by
  induction items generalizing ns as with
  | nil => rfl
  | cons i rest ih => simp [List.foldl_cons, ih]

theorem pipeline_news_foldl (now : Nat) (db : DB) :
    (process_alerts_pipeline now db).news =
      (unprocessedHighImpact db.news).foldl
        (fun ns item => markItemProcessed ns item.id) db.news := by
  rw [process_alerts_pipeline]
  exact fanout_fold_fst now db.users db.alerts (unprocessedHighImpact db.news) db.news db.alerts

/-- A row whose id differs from every selected item's id survives the
processed-marking fold unchanged. -/
theorem mem_markFold (items : List NewsItem) (ns : List NewsItem) (x : NewsItem)
    (hx : x ∈ ns) (h : ∀ i ∈ items, (x.id == i.id) = false) :
    x ∈ items.foldl (fun ns item => markItemProcessed ns item.id) ns := by
  induction items generalizing ns with
  | nil => simpa
  | cons i rest ih =>
    simp only [List.foldl_cons]
    apply ih
    · have hxi : (x.id == i.id) = false := h i (by simp)
      have hfix : (fun n => if n.id == i.id then { n with processed := true } else n) x = x := by
        simp [hxi]
      rw [markItemProcessed, ← hfix]
      exact List.mem_map_of_mem _ hx
    · intro j hj
      exact h j (by simp [hj])

/-- C4, amended: in every fanout run an item with impact score below 2 is
never selected, and — its row id being unique — the run leaves its row
untouched, so it is NOT marked processed (it stays eligible-shaped forever);
an unprocessed item with impact score 2 or above is selected. -/
theorem C4_impact_threshold (now : Nat) (db : DB) (item item2 : NewsItem)
    (hmem : item ∈ db.news) (hlow : item.impact_score < 2)
    (hids : allDistinct (db.news.map (fun n => n.id)) = true)
    (hmem2 : item2 ∈ db.news) (hproc2 : item2.processed = false)
    (hhigh2 : 2 ≤ item2.impact_score) :
    item ∉ unprocessedHighImpact db.news ∧
    item ∈ (process_alerts_pipeline now db).news ∧
    item2 ∈ unprocessedHighImpact db.news := by
  have hmemsel : ∀ m : NewsItem, m ∈ unprocessedHighImpact db.news ↔
      (m ∈ db.news ∧ m.processed = false ∧ 2 ≤ m.impact_score) := by
    intro m
    simp [unprocessedHighImpact, List.mem_filter, Bool.and_eq_true,
      Bool.not_eq_true', decide_eq_true_eq, and_assoc]
  refine ⟨?_, ?_, (hmemsel item2).mpr ⟨hmem2, hproc2, hhigh2⟩⟩
  · intro hcon
    have := ((hmemsel item).mp hcon).2.2
    omega
  · rw [pipeline_news_foldl]
    apply mem_markFold _ _ _ hmem
    intro i hi
    have hi2 := (hmemsel i).mp hi
    have hne : item ≠ i := by
      intro he
      rw [← he] at hi2
      omega
    have hneid : item.id ≠ i.id := fun hid =>
      hne (List.inj_on_of_nodup_map ((allDistinct_iff_nodup _).mp hids) hmem hi2.1 hid)
    simp [hneid]

/-- An unprocessed item below the impact threshold, watched by a matching
user. -/
def lowItem : NewsItem :=
  { id := 3, title := "Nada demais", content := "c", url := "http://news/low",
    category := "economy", source := "G1", published_at := 0,
    impact_score := 1, processed := false }

def lowDb : DB := ⟨[lowItem], [exUser], []⟩

/-- C4, counterexample: a run over a store holding one unprocessed item with
impact score 1 and a category-matching, active-plan user leaves the item's row
unchanged — `processed` stays `false` (and no alert is created) — refuting
"is still marked processed=true once it is in scope of a run". -/
theorem C4_counterexample :
    (process_alerts_pipeline 5 lowDb).news = [lowItem] ∧
    lowItem.processed = false ∧
    wantsCategory lowItem.category exUser.categories = true ∧
    hasActivePlan 5 exUser = true ∧
    (process_alerts_pipeline 5 lowDb).alerts = [] := by
  refine ⟨by decide, rfl, by decide, by decide, by decide⟩

/-- An unprocessed item at the impact threshold. -/
def highItem : NewsItem :=
  { id := 4, title := "Crise agora", content := "c", url := "http://news/high",
    category := "economy", source := "G1", published_at := 0,
    impact_score := 2, processed := false }

def mixedDb : DB := ⟨[lowItem, highItem], [exUser], []⟩

theorem C4_impact_threshold_witness :
    lowItem ∉ unprocessedHighImpact mixedDb.news ∧
    lowItem ∈ (process_alerts_pipeline 5 mixedDb).news ∧
    highItem ∈ unprocessedHighImpact mixedDb.news :=
  C4_impact_threshold 5 mixedDb lowItem highItem (by decide) (by decide)
    (by decide) (by decide) (by decide) (by decide)

theorem urlsOf_append (l1 l2 : List NewsItem) :
    urlsOf (l1 ++ l2) = urlsOf l1 ++ urlsOf l2 := by
  simp [urlsOf]

theorem countUrl_eq_count (l : List NewsItem) (x : String) :
    countUrl l x = List.count x (urlsOf l) := by
  rw [countUrl, urlsOf, List.count_eq_countP, List.countP_map]
  rfl

theorem any_url_iff_mem (store : List NewsItem) (x : String) :
    store.any (fun n => n.url == x) = true ↔ x ∈ urlsOf store := by
  simp [urlsOf, List.any_eq_true, List.mem_map, beq_iff_eq]

/-- The URLs added by one persist run are the candidate URLs absent from the
committed store, kept with multiplicity. -/
theorem pendingItems_urls (store : List NewsItem) (cands : List Article) :
    urlsOf (pendingItems store cands) =
      (cands.map (fun a => a.url)).filter
        (fun u => !(store.any (fun n => n.url == u))) := by
  induction cands with
  | nil => rfl
  | cons a rest ih =>
    simp only [urlsOf] at ih ⊢
    rw [pendingItems]
    cases hx : store.any (fun n => n.url == a.url) with
    | true => simp [hx, List.filter_cons, ih]
    | false => simp [hx, List.filter_cons, ih, mkNewsItem]

theorem pendingItems_nil_of_all_present (store : List NewsItem) (cands : List Article)
    (h : ∀ a ∈ cands, store.any (fun n => n.url == a.url) = true) :
    pendingItems store cands = [] := by
  induction cands with
  | nil => rfl
  | cons a rest ih =>
    rw [pendingItems, if_pos (h a (by simp))]
    exact ih (fun b hb => h b (by simp [hb]))

/-- C8, amended: over candidates with pairwise-distinct URLs (and a store
whose URLs are unique), one persist run stores exactly one item per candidate
URL, URL uniqueness is preserved, and a second identical run inserts nothing.
(With duplicate URLs inside the batch the insert set violates the UNIQUE
constraint at commit and the whole batch rolls back — see the
counterexample.) -/
theorem C8_dedup_idempotent (store : List NewsItem) (cands : List Article)
    (h1 : allDistinct (urlsOf store) = true)
    (h2 : allDistinct (cands.map (fun a => a.url)) = true) :
    persistRun (persistRun store cands) cands = persistRun store cands ∧
    allDistinct (urlsOf (persistRun store cands)) = true ∧
    (cands.all (fun a => countUrl (persistRun store cands) a.url == 1) = true) := by
  have hnd_store : (urlsOf store).Nodup := (allDistinct_iff_nodup _).mp h1
  have hnd_c : (cands.map (fun a => a.url)).Nodup := (allDistinct_iff_nodup _).mp h2
  have hpu := pendingItems_urls store cands
  have hnd_p : (urlsOf (pendingItems store cands)).Nodup := by
    rw [hpu]
    exact List.Nodup.filter _ hnd_c
  have hdisj : (urlsOf store).Disjoint (urlsOf (pendingItems store cands)) := by
    intro x hx hx2
    rw [hpu, List.mem_filter] at hx2
    have hb := hx2.2
    rw [Bool.not_eq_true'] at hb
    rw [(any_url_iff_mem store x).mpr hx] at hb
    exact Bool.true_eq_false.mp hb
  have hOK : allDistinct (urlsOf (store ++ pendingItems store cands)) = true := by
    rw [allDistinct_iff_nodup, urlsOf_append]
    exact List.nodup_append.mpr ⟨hnd_store, hnd_p, hdisj⟩
  have hs1 : persistRun store cands = store ++ pendingItems store cands := by
    rw [persistRun, if_pos hOK]
  have hcount : ∀ a ∈ cands, countUrl (persistRun store cands) a.url = 1 := by
    intro a ha
    rw [hs1, countUrl_eq_count, urlsOf_append, List.count_append]
    by_cases hx : a.url ∈ urlsOf store
    · have c1 : List.count a.url (urlsOf store) = 1 :=
        List.count_eq_one_of_mem hnd_store hx
      have c2 : List.count a.url (urlsOf (pendingItems store cands)) = 0 := by
        rw [List.count_eq_zero]
        intro hmem
        exact hdisj hx hmem
      rw [c1, c2]
    · have c1 : List.count a.url (urlsOf store) = 0 := List.count_eq_zero.mpr hx
      have hanyf : store.any (fun n => n.url == a.url) = false := by
        cases hh : store.any (fun n => n.url == a.url) with
        | false => rfl
        | true => exact absurd ((any_url_iff_mem store a.url).mp hh) hx
      have hmemp : a.url ∈ urlsOf (pendingItems store cands) := by
        rw [hpu, List.mem_filter]
        exact ⟨List.mem_map_of_mem _ ha, by simp [hanyf]⟩
      have c2 : List.count a.url (urlsOf (pendingItems store cands)) = 1 :=
        List.count_eq_one_of_mem hnd_p hmemp
      rw [c1, c2]
  refine ⟨?_, ?_, ?_⟩
  · have hall : ∀ a ∈ cands,
        (persistRun store cands).any (fun n => n.url == a.url) = true := by
      intro a ha
      rw [any_url_iff_mem, hs1, urlsOf_append, List.mem_append]
      by_cases hx : a.url ∈ urlsOf store
      · exact Or.inl hx
      · right
        have hanyf : store.any (fun n => n.url == a.url) = false := by
          cases hh : store.any (fun n => n.url == a.url) with
          | false => rfl
          | true => exact absurd ((any_url_iff_mem store a.url).mp hh) hx
        rw [hpu, List.mem_filter]
        exact ⟨List.mem_map_of_mem _ ha, by simp [hanyf]⟩
    have hp2 : pendingItems (persistRun store cands) cands = [] :=
      pendingItems_nil_of_all_present _ _ hall
    rw [persistRun, hp2, List.append_nil, ite_self]
  · rw [hs1]
    exact hOK
  · rw [List.all_eq_true]
    intro a ha
    simp [hcount a ha]

/-- A candidate article (with a title long enough for the scraper). -/
def dupArticle : Article :=
  { title := "Titulo bastante longo", content := "c", url := "http://dup/x",
    source := "G1", category := "economy", published_at := 0 }

/-- C8, counterexample: a candidate batch containing the same URL twice makes
the commit violate the UNIQUE constraint on `news_items.url`, so the whole
batch is rolled back and — after two identical runs — zero items (not one)
are stored for that URL. -/
theorem C8_counterexample :
    persistRun (persistRun [] [dupArticle, dupArticle]) [dupArticle, dupArticle] = [] ∧
    countUrl (persistRun (persistRun [] [dupArticle, dupArticle])
        [dupArticle, dupArticle]) "http://dup/x" ≠ 1 := by
  refine ⟨by decide, by decide⟩

def okArticle1 : Article :=
  { title := "Primeira noticia longa", content := "c", url := "http://ok/1",
    source := "G1", category := "economy", published_at := 0 }

def okArticle2 : Article :=
  { title := "Segunda noticia longa", content := "c", url := "http://ok/2",
    source := "G1", category := "markets", published_at := 0 }

theorem C8_dedup_idempotent_witness :
    persistRun (persistRun [] [okArticle1, okArticle2]) [okArticle1, okArticle2] =
      persistRun [] [okArticle1, okArticle2] ∧
    allDistinct (urlsOf (persistRun [] [okArticle1, okArticle2])) = true ∧
    ([okArticle1, okArticle2].all
        (fun a => countUrl (persistRun [] [okArticle1, okArticle2]) a.url == 1) = true) :=
  C8_dedup_idempotent [] [okArticle1, okArticle2] (by decide) (by decide)

end Claims

end GeoEcoNews
